import Mathlib

/-!
Shallow embedding of the credibility scoring engine in
src/src/lib/analysisService.ts (class AnalysisService).

Modelling conventions:
- JS strings are Lean String values; all scanning is done over String.data
  (the character list).  The inputs of interest are ASCII, where JS UTF-16
  length and the codepoint count agree.
- JS numbers are modelled as exact rationals; integer-valued scores are Int.
  Math.round rounds half toward positive infinity, which is floor (x + 1/2).
- Each regex of the source is hand-compiled to a decidable scanning function
  over the character list.  The i flag is ASCII case folding via Char.toLower;
  a dot in a regex matches any character except a line terminator.
- The external sentiment classifier (this.sentimentAnalyzer, possibly null,
  and its awaited call, which may throw) is made an explicit argument of
  analyzeText: none models a null analyzer handle, some (Except.error u)
  models a throwing call, some (Except.ok r) a result r.  The result array
  is modelled by its single element.
-/

namespace AnalysisService

/-- One entry of the array returned by the sentiment classifier:
a label string and a probability. -/
structure SentimentRes where
  label : String
  score : ℚ
  deriving DecidableEq

/-- Character comparison used for the regex i flag (ASCII case folding). -/
def lcEq (a b : Char) : Bool := a.toLower = b.toLower

/-- The pattern is a prefix of the text, chars compared with eq. -/
def matchesAtBy (eq : Char → Char → Bool) : List Char → List Char → Bool
  | [], _ => true
  | _ :: _, [] => false
  | p :: ps, c :: cs => eq p c && matchesAtBy eq ps cs

/-- Some suffix of the text starts with the pattern. -/
def containsBy (eq : Char → Char → Bool) (pat : List Char) : List Char → Bool
  | [] => matchesAtBy eq pat []
  | c :: cs => matchesAtBy eq pat (c :: cs) || containsBy eq pat cs

/-- Case-insensitive literal containment: the regex slash pat slash i. -/
def containsCI (pat : String) (s : List Char) : Bool := containsBy lcEq pat.data s

/-- Case-sensitive literal containment (regexes without the i flag). -/
def containsCS (pat : String) (s : List Char) : Bool :=
  containsBy (fun a b => a = b) pat.data s

/-- Line terminators, which a regex dot does not match. -/
def isLineTerm (c : Char) : Bool :=
  c = '\n' || c = '\r' || c.toNat = 0x2028 || c.toNat = 0x2029

/-- At the head of the text: literal a, then an optional single non-terminator
character, then literal b (the regex a dot question-mark b, i flag). -/
def dotOptAt (a b : String) (s : List Char) : Bool :=
  matchesAtBy lcEq a.data s &&
    (matchesAtBy lcEq b.data (s.drop a.data.length) ||
      (match s.drop a.data.length with
       | [] => false
       | c :: t => !isLineTerm c && matchesAtBy lcEq b.data t))

/-- Containment version of dotOptAt. -/
def containsDotOpt (a b : String) : List Char → Bool
  | [] => dotOptAt a b []
  | c :: cs => dotOptAt a b (c :: cs) || containsDotOpt a b cs

/-- After a gap of non-terminator characters, the pattern matches
(the regex dot star followed by pat). -/
def gapThen (pat : String) : List Char → Bool
  | [] => matchesAtBy lcEq pat.data []
  | c :: cs => matchesAtBy lcEq pat.data (c :: cs) || (!isLineTerm c && gapThen pat cs)

/-- The regex: all, space, dot star, space, are (i flag). -/
def containsAllAre : List Char → Bool
  | [] => false
  | c :: cs =>
    (matchesAtBy lcEq ("all ").data (c :: cs) && gapThen (" are") ((c :: cs).drop 4)) ||
      containsAllAre cs

/-- Exclamation or question mark. -/
def isBang (c : Char) : Bool := c = '!' || c = '?'

/-- Number of maximal runs of at least two consecutive exclamation or question
marks: the length of the global match list of the punctuation-run regex.
The second argument carries the length of the current run. -/
def punctRuns : List Char → Nat → Nat
  | [], run => if 2 ≤ run then 1 else 0
  | c :: cs, run =>
    if isBang c then punctRuns cs (run + 1)
    else (if 2 ≤ run then 1 else 0) + punctRuns cs 0

/-- Number of uppercase ASCII letters: length of the global match list of
the uppercase-letter regex. -/
def upperCount (s : List Char) : Nat :=
  s.countP (fun c => decide (('A') ≤ c) && decide (c ≤ ('Z')))

/-- Ratio of uppercase letters to text length.  On the empty text JS computes
NaN and every comparison with it is false; rational division gives 0 there,
and the only use is a comparison with 0.3, false in both semantics. -/
def capsRatio (s : List Char) : ℚ := (upperCount s : ℚ) / (s.length : ℚ)

/-- A digit immediately followed by a percent sign: existence of a match of
the first alternative of the numeric-claim regex. -/
def digitPct : List Char → Bool
  | c :: d :: t => (c.isDigit && d = '%') || digitPct (d :: t)
  | _ => false

/-- One or more digits immediately followed by a percent sign. -/
def digitsThenPct : List Char → Bool
  | c :: t =>
    c.isDigit &&
      (match t with
       | d :: _ => d = '%' || digitsThenPct t
       | [] => false)
  | [] => false

/-- A digit, a dot, then digits and a percent sign: second alternative of the
numeric-claim regex. -/
def dotPctPat : List Char → Bool
  | c :: d :: t => (c.isDigit && d = '.' && digitsThenPct t) || dotPctPat (d :: t)
  | _ => false

/-- A dollar sign immediately followed by a digit: third alternative. -/
def dollarDigit : List Char → Bool
  | c :: d :: t => (c = '$' && d.isDigit) || dollarDigit (d :: t)
  | _ => false

/-- A digit, a space, then million, billion or thousand: fourth alternative. -/
def digitSpaceWord : List Char → Bool
  | c :: d :: t =>
    (c.isDigit && d = ' ' &&
      (matchesAtBy lcEq ("million").data t || matchesAtBy lcEq ("billion").data t ||
        matchesAtBy lcEq ("thousand").data t)) ||
      digitSpaceWord (d :: t)
  | _ => false

/-- The numeric-claim regex of analyzeFactualConsistency. -/
def hasNumbers (s : List Char) : Bool :=
  digitPct s || dotPctPat s || dollarDigit s || digitSpaceWord s

/-- The attribution-marker regex of analyzeFactualConsistency. -/
def hasSources (s : List Char) : Bool :=
  containsCI ("according to") s || containsCI ("source:") s ||
    containsCI ("study shows") s || containsCI ("research indicates") s

/-- Math.max(0, Math.min(100, score)), the final clamp of each sub-score. -/
def clamp100 (score : Int) : Int := max 0 (min 100 score)

/-- The clickbait pattern list of analyzeLanguagePatterns. -/
def clickbaitPatterns : List (List Char → Bool) :=
  [containsCI ("you won\x27t believe"), containsCI ("shocking"), containsCI ("amazing"),
   containsCI ("incredible"), containsCI ("unbelievable"), containsCI ("must see"),
   containsCI ("viral")]

/-- The emotional word list of analyzeLanguagePatterns. -/
def emotionalWords : List (List Char → Bool) :=
  [containsCI ("devastating"), containsCI ("outrageous"), containsCI ("scandal"),
   containsCI ("explosive"), containsCI ("bombshell")]

/-- patterns.filter(pattern matches text).length. -/
def countMatches (pats : List (List Char → Bool)) (s : List Char) : Nat :=
  (pats.filter (fun p => p s)).length

/-- AnalysisService.analyzeLanguagePatterns. -/
def analyzeLanguagePatterns (text : String) : Int :=
  let s := text.data
  let score : Int := 80
  let score := if capsRatio s > 0.3 then score - 20 else score
  let score := if 0 < punctRuns s 0 then score - 15 else score
  let score := score - (countMatches clickbaitPatterns s : Int) * 10
  let score := score - (countMatches emotionalWords s : Int) * 8
  clamp100 score

/-- The absolute-statement pattern list of analyzeFactualConsistency. -/
def absolutePatterns : List (List Char → Bool) :=
  [containsCI ("always"), containsCI ("never"), containsCI ("everyone"),
   containsCI ("nobody"), containsAllAre, containsCI ("completely"),
   containsCI ("totally")]

/-- The conspiracy pattern list of analyzeFactualConsistency. -/
def conspiracyPatterns : List (List Char → Bool) :=
  [containsCI ("they don\x27t want you to know"), containsCI ("hidden truth"),
   containsDotOpt ("cover") ("up"), containsCI ("mainstream media"),
   containsCI ("wake up")]

/-- AnalysisService.analyzeFactualConsistency. -/
def analyzeFactualConsistency (text : String) : Int :=
  let s := text.data
  let score : Int := 75
  let score := if hasNumbers s && !hasSources s then score - 25 else score
  let score := score - (countMatches absolutePatterns s : Int) * 10
  let score := score - (countMatches conspiracyPatterns s : Int) * 15
  clamp100 score

/-- The credible-source pattern list of analyzeSourceReliability.  The edu and
gov domain regexes carry no i flag and are case sensitive. -/
def crediblePatterns : List (List Char → Bool) :=
  [containsCS (".edu"), containsCS (".gov"), containsCI ("reuters"),
   containsCI ("associated press"), containsCI ("bbc"),
   containsDotOpt ("peer") ("reviewed"), containsCI ("journal"),
   containsCI ("university")]

/-- The unreliable-source pattern list of analyzeSourceReliability. -/
def unreliablePatterns : List (List Char → Bool) :=
  [containsCI ("blog"), containsCI ("facebook post"), containsCI ("twitter"),
   containsCI ("anonymous source"), containsCI ("leaked"), containsCI ("exclusive")]

/-- The attribution-verb regex shared by analyzeSourceReliability and
identifyRiskFactors. -/
def hasAttribution (s : List Char) : Bool :=
  containsCI ("said") s || containsCI ("according") s ||
    containsCI ("reported") s || containsCI ("stated") s

/-- AnalysisService.analyzeSourceReliability. -/
def analyzeSourceReliability (text : String) : Int :=
  let s := text.data
  let score : Int := 60
  let score := score + (countMatches crediblePatterns s : Int) * 15
  let score := score - (countMatches unreliablePatterns s : Int) * 10
  let score := if !hasAttribution s then score - 20 else score
  clamp100 score

/-- The clickbait risk regex of identifyRiskFactors. -/
def clickbaitRisk (s : List Char) : Bool :=
  containsCI ("you won\x27t believe") s || containsCI ("shocking") s ||
    containsCI ("amazing") s

/-- The conspiracy risk regex of identifyRiskFactors. -/
def conspiracyRisk (s : List Char) : Bool :=
  containsCI ("they don\x27t want you to know") s || containsCI ("hidden truth") s ||
    containsDotOpt ("cover") ("up") s

/-- AnalysisService.identifyRiskFactors: each push on the array becomes one
conditional singleton in an ordered concatenation. -/
def identifyRiskFactors (text : String) (languageScore factualScore : Int) :
    List String :=
  let s := text.data
  (if languageScore < 50 then [("Suspicious language patterns detected")] else []) ++
  (if factualScore < 50 then [("Lack of factual substantiation")] else []) ++
  (if clickbaitRisk s then [("Clickbait-style language")] else []) ++
  (if conspiracyRisk s then [("Conspiracy-style rhetoric")] else []) ++
  (if capsRatio s > 0.3 then [("Excessive capitalization")] else []) ++
  (if 0 < punctRuns s 0 then [("Excessive punctuation")] else []) ++
  (if !hasAttribution s && decide (100 < s.length) then
    [("No attribution to sources")] else [])

/-- JS Math.round: round half toward positive infinity. -/
def jsRound (x : ℚ) : Int := Int.floor (x + 1/2)

/-- The three-way classification of a result. -/
inductive Classification where
  | trustworthy
  | misleading
  | uncertain
  deriving DecidableEq

/-- The classification threshold chain, shared verbatim by analyzeText and
getFallbackAnalysis.  analyzeText applies it to the rounded integer score,
getFallbackAnalysis to the not yet rounded clamped score. -/
def classifyScore (s : ℚ) : Classification :=
  if s ≥ 75 then Classification.trustworthy
  else if s ≤ 40 then Classification.misleading
  else Classification.uncertain

/-- The factors field of the returned object. -/
structure Factors where
  languagePattern : Int
  sentimentAnalysis : Int
  factualConsistency : Int
  sourceReliability : Int
  deriving DecidableEq

/-- The object returned by analyzeText and getFallbackAnalysis. -/
structure AnalysisResult where
  credibilityScore : Int
  classification : Classification
  factors : Factors
  riskFactors : List String
  confidenceLevel : Int
  deriving DecidableEq

/-- text.split(single space).length: one more than the number of spaces. -/
def wordCount (text : String) : Nat := text.data.count (' ' : Char) + 1

/-- Length of the global match list of the question-mark regex. -/
def questionMarkCount (text : String) : Nat := text.data.count ('?' : Char)

/-- Length of the global match list of the exclamation regex. -/
def exclamationCount (text : String) : Nat := text.data.count ('!' : Char)

/-- The clamped fallback credibility value, before rounding. -/
def fallbackRawScore (text : String) : ℚ :=
  max 30 (min 85
    (70 - (questionMarkCount text : ℚ) * 5 - (exclamationCount text : ℚ) * 3 +
      min ((wordCount text : ℚ) / 10) 15))

/-- AnalysisService.getFallbackAnalysis. -/
def getFallbackAnalysis (text : String) : AnalysisResult :=
  let credibilityScore := fallbackRawScore text
  { credibilityScore := jsRound credibilityScore
    classification := classifyScore credibilityScore
    factors :=
      { languagePattern := analyzeLanguagePatterns text
        sentimentAnalysis := 60
        factualConsistency := analyzeFactualConsistency text
        sourceReliability := analyzeSourceReliability text }
    riskFactors := identifyRiskFactors text 60 60
    confidenceLevel := 75 }

/-- The body of the try block of AnalysisService.analyzeText, given the
(possibly defaulted) sentiment result.  The or-default on the score field
replaces a falsy probability, that is an exact 0, by 0.5. -/
def analyzeCore (text : String) (sentimentResult : SentimentRes) : AnalysisResult :=
  let languageScore := analyzeLanguagePatterns text
  let factualScore := analyzeFactualConsistency text
  let sourceScore := analyzeSourceReliability text
  let sentimentScore : ℚ := if sentimentResult.score = 0 then 0.5 else sentimentResult.score
  let isNegativeSentiment : Bool := sentimentResult.label == ("NEGATIVE")
  let credibilityScore : Int := jsRound
    ((languageScore : ℚ) * 0.3 +
      (if isNegativeSentiment then (1 - sentimentScore) * 100 else sentimentScore * 100) *
        0.2 +
      (factualScore : ℚ) * 0.3 + (sourceScore : ℚ) * 0.2)
  let confidenceLevel : Int := jsRound (|(credibilityScore : ℚ) - 50| * 2)
  { credibilityScore := credibilityScore
    classification := classifyScore (credibilityScore : ℚ)
    factors :=
      { languagePattern := languageScore
        sentimentAnalysis := jsRound (sentimentScore * 100)
        factualConsistency := factualScore
        sourceReliability := sourceScore }
    riskFactors := identifyRiskFactors text languageScore factualScore
    confidenceLevel := min confidenceLevel 95 }

/-- The neutral default used when the analyzer handle is null. -/
def neutralSentiment : SentimentRes := { label := ("NEUTRAL"), score := 0.5 }

/-- AnalysisService.analyzeText.  The argument models the analyzer handle and
its call on this text: none is a null handle (neutral default), a thrown call
lands in the catch block, which returns getFallbackAnalysis. -/
def analyzeText (text : String) (sentimentCall : Option (Except Unit SentimentRes)) :
    AnalysisResult :=
  match sentimentCall with
  | none => analyzeCore text neutralSentiment
  | some (Except.ok r) => analyzeCore text r
  | some (Except.error _) => getFallbackAnalysis text

/-- The ordered list of checks of identifyRiskFactors, each paired with the
label it pushes, written as the specification describes them. -/
def riskChecks (text : String) (languageScore factualScore : Int) :
    List (Bool × String) :=
  let s := text.data
  [(decide (languageScore < 50), ("Suspicious language patterns detected")),
   (decide (factualScore < 50), ("Lack of factual substantiation")),
   (clickbaitRisk s, ("Clickbait-style language")),
   (conspiracyRisk s, ("Conspiracy-style rhetoric")),
   (decide (capsRatio s > 0.3), ("Excessive capitalization")),
   (decide (0 < punctRuns s 0), ("Excessive punctuation")),
   (!hasAttribution s && decide (100 < s.length), ("No attribution to sources"))]

/-- Both factor scores and the credibility score lie in the unit-percent
range; the confidence level lies in the zero to ninety-five range. -/
def scoreInRange (n : Int) : Prop := 0 ≤ n ∧ n ≤ 100

/-- All displayed numbers of a result are in their documented ranges. -/
def resultInRange (a : AnalysisResult) : Prop :=
  scoreInRange a.factors.languagePattern ∧
  scoreInRange a.factors.sentimentAnalysis ∧
  scoreInRange a.factors.factualConsistency ∧
  scoreInRange a.factors.sourceReliability ∧
  scoreInRange a.credibilityScore ∧
  0 ≤ a.confidenceLevel ∧ a.confidenceLevel ≤ 95

theorem analyzeText_none (text : String) :
    analyzeText text none = analyzeCore text neutralSentiment := rfl

theorem analyzeText_ok (text : String) (r : SentimentRes) :
    analyzeText text (some (Except.ok r)) = analyzeCore text r := rfl

theorem analyzeText_error (text : String) (u : Unit) :
    analyzeText text (some (Except.error u)) = getFallbackAnalysis text := rfl

theorem analyzeCore_credibility (text : String) (sres : SentimentRes) :
    (analyzeCore text sres).credibilityScore = jsRound
      ((analyzeLanguagePatterns text : ℚ) * 0.3 +
        (if (sres.label == ("NEGATIVE") : Bool) then
            (1 - (if sres.score = 0 then 0.5 else sres.score)) * 100
          else (if sres.score = 0 then 0.5 else sres.score) * 100) * 0.2 +
        (analyzeFactualConsistency text : ℚ) * 0.3 +
        (analyzeSourceReliability text : ℚ) * 0.2) := rfl

theorem analyzeCore_sentFactor (text : String) (sres : SentimentRes) :
    (analyzeCore text sres).factors.sentimentAnalysis =
      jsRound ((if sres.score = 0 then 0.5 else sres.score) * 100) := rfl

theorem analyzeCore_languagePattern (text : String) (sres : SentimentRes) :
    (analyzeCore text sres).factors.languagePattern = analyzeLanguagePatterns text := rfl

theorem analyzeCore_factual (text : String) (sres : SentimentRes) :
    (analyzeCore text sres).factors.factualConsistency = analyzeFactualConsistency text := rfl

theorem analyzeCore_source (text : String) (sres : SentimentRes) :
    (analyzeCore text sres).factors.sourceReliability = analyzeSourceReliability text := rfl

theorem analyzeCore_classification (text : String) (sres : SentimentRes) :
    (analyzeCore text sres).classification =
      classifyScore ((analyzeCore text sres).credibilityScore : ℚ) := rfl

theorem analyzeCore_confidence (text : String) (sres : SentimentRes) :
    (analyzeCore text sres).confidenceLevel =
      min (jsRound (|((analyzeCore text sres).credibilityScore : ℚ) - 50| * 2)) 95 := rfl

theorem analyzeCore_riskFactors (text : String) (sres : SentimentRes) :
    (analyzeCore text sres).riskFactors =
      identifyRiskFactors text (analyzeLanguagePatterns text)
        (analyzeFactualConsistency text) := rfl

theorem getFallback_credibility (text : String) :
    (getFallbackAnalysis text).credibilityScore = jsRound (fallbackRawScore text) := rfl

theorem getFallback_classification (text : String) :
    (getFallbackAnalysis text).classification = classifyScore (fallbackRawScore text) := rfl

theorem getFallback_confidence (text : String) :
    (getFallbackAnalysis text).confidenceLevel = 75 := rfl

theorem getFallback_riskFactors (text : String) :
    (getFallbackAnalysis text).riskFactors = identifyRiskFactors text 60 60 := rfl

theorem jsRound_intCast (n : Int) : jsRound ((n : ℚ)) = n := by
  unfold jsRound
  rw [Int.floor_int_add]
  norm_num

theorem jsRound_ge {x : ℚ} {n : Int} (h : (n : ℚ) ≤ x) : n ≤ jsRound x :=
  Int.le_floor.mpr (by linarith)

theorem jsRound_le {x : ℚ} {n : Int} (h : x ≤ (n : ℚ)) : jsRound x ≤ n := by
  have : jsRound x < n + 1 := Int.floor_lt.mpr (by push_cast; linarith)
  omega

theorem clamp100_range (s : Int) : 0 ≤ clamp100 s ∧ clamp100 s ≤ 100 :=
  ⟨le_max_left 0 _, max_le (by norm_num) (min_le_left 100 _)⟩

theorem analyzeLanguagePatterns_range (text : String) :
    0 ≤ analyzeLanguagePatterns text ∧ analyzeLanguagePatterns text ≤ 100 := by
  simp only [analyzeLanguagePatterns]
  exact clamp100_range _

theorem analyzeFactualConsistency_range (text : String) :
    0 ≤ analyzeFactualConsistency text ∧ analyzeFactualConsistency text ≤ 100 := by
  simp only [analyzeFactualConsistency]
  exact clamp100_range _

theorem analyzeSourceReliability_range (text : String) :
    0 ≤ analyzeSourceReliability text ∧ analyzeSourceReliability text ≤ 100 := by
  simp only [analyzeSourceReliability]
  exact clamp100_range _

theorem fallbackRawScore_bounds (text : String) :
    30 ≤ fallbackRawScore text ∧ fallbackRawScore text ≤ 85 :=
  ⟨le_max_left 30 _, max_le (by norm_num) (min_le_left 85 _)⟩

theorem weightedQ_range {L F S : Int} {A : ℚ} (hL0 : 0 ≤ L) (hL1 : L ≤ 100)
    (hF0 : 0 ≤ F) (hF1 : F ≤ 100) (hS0 : 0 ≤ S) (hS1 : S ≤ 100)
    (hA0 : 0 ≤ A) (hA1 : A ≤ 100) :
    0 ≤ (L : ℚ) * 0.3 + A * 0.2 + (F : ℚ) * 0.3 + (S : ℚ) * 0.2 ∧
      (L : ℚ) * 0.3 + A * 0.2 + (F : ℚ) * 0.3 + (S : ℚ) * 0.2 ≤ 100 := by
  have hL0Q : (0 : ℚ) ≤ (L : ℚ) := by exact_mod_cast hL0
  have hL1Q : (L : ℚ) ≤ 100 := by exact_mod_cast hL1
  have hF0Q : (0 : ℚ) ≤ (F : ℚ) := by exact_mod_cast hF0
  have hF1Q : (F : ℚ) ≤ 100 := by exact_mod_cast hF1
  have hS0Q : (0 : ℚ) ≤ (S : ℚ) := by exact_mod_cast hS0
  have hS1Q : (S : ℚ) ≤ 100 := by exact_mod_cast hS1
  have e3 : (0.3 : ℚ) = 3 / 10 := by norm_num
  have e2 : (0.2 : ℚ) = 2 / 10 := by norm_num
  rw [e3, e2]
  constructor <;> linarith

theorem effectiveScore_range {p : ℚ} (h0 : 0 ≤ p) (h1 : p ≤ 1) :
    0 ≤ (if p = 0 then (0.5 : ℚ) else p) ∧ (if p = 0 then (0.5 : ℚ) else p) ≤ 1 := by
  split
  · constructor <;> norm_num
  · exact ⟨h0, h1⟩

theorem sentAdj_range {p : ℚ} (b : Bool) (h0 : 0 ≤ p) (h1 : p ≤ 1) :
    0 ≤ (if b then (1 - p) * 100 else p * 100) ∧
      (if b then (1 - p) * 100 else p * 100) ≤ 100 := by
  cases b <;> simp <;> constructor <;> nlinarith

theorem core_inRange (text : String) (sres : SentimentRes)
    (h0 : 0 ≤ sres.score) (h1 : sres.score ≤ 1) :
    resultInRange (analyzeCore text sres) := by
  obtain ⟨hL0, hL1⟩ := analyzeLanguagePatterns_range text
  obtain ⟨hF0, hF1⟩ := analyzeFactualConsistency_range text
  obtain ⟨hS0, hS1⟩ := analyzeSourceReliability_range text
  obtain ⟨hp0, hp1⟩ := effectiveScore_range h0 h1
  obtain ⟨hA0, hA1⟩ :=
    sentAdj_range (p := if sres.score = 0 then (0.5 : ℚ) else sres.score)
      (sres.label == ("NEGATIVE")) hp0 hp1
  obtain ⟨hQ0, hQ1⟩ := weightedQ_range (A :=
      (if (sres.label == ("NEGATIVE") : Bool) then
          (1 - (if sres.score = 0 then (0.5 : ℚ) else sres.score)) * 100
        else (if sres.score = 0 then (0.5 : ℚ) else sres.score) * 100))
    hL0 hL1 hF0 hF1 hS0 hS1 hA0 hA1
  have hcs0 : 0 ≤ (analyzeCore text sres).credibilityScore := by
    rw [analyzeCore_credibility]
    exact jsRound_ge (by push_cast; linarith)
  have hcs1 : (analyzeCore text sres).credibilityScore ≤ 100 := by
    rw [analyzeCore_credibility]
    exact jsRound_le (by push_cast; linarith)
  refine ⟨?_, ?_, ?_, ?_, ?_, ?_, ?_⟩
  · rw [analyzeCore_languagePattern]; exact ⟨hL0, hL1⟩
  · rw [analyzeCore_sentFactor]
    constructor
    · exact jsRound_ge (by push_cast; nlinarith)
    · exact jsRound_le (by push_cast; nlinarith)
  · rw [analyzeCore_factual]; exact ⟨hF0, hF1⟩
  · rw [analyzeCore_source]; exact ⟨hS0, hS1⟩
  · exact ⟨hcs0, hcs1⟩
  · rw [analyzeCore_confidence]
    refine le_min (jsRound_ge ?_) (by norm_num)
    push_cast
    positivity
  · rw [analyzeCore_confidence]
    exact min_le_right _ _

theorem fallback_inRange (text : String) : resultInRange (getFallbackAnalysis text) := by
  obtain ⟨hR0, hR1⟩ := fallbackRawScore_bounds text
  refine ⟨?_, ?_, ?_, ?_, ?_, ?_, ?_⟩
  · exact analyzeLanguagePatterns_range text
  · constructor <;> norm_num [getFallbackAnalysis]
  · exact analyzeFactualConsistency_range text
  · exact analyzeSourceReliability_range text
  · rw [getFallback_credibility]
    constructor
    · exact jsRound_ge (by push_cast; linarith)
    · exact jsRound_le (by push_cast; linarith)
  · rw [getFallback_confidence]; norm_num
  · rw [getFallback_confidence]; norm_num

theorem core_confidence_eq (text : String) (sres : SentimentRes) :
    (analyzeCore text sres).confidenceLevel =
      min (|(analyzeCore text sres).credibilityScore - 50| * 2) 95 := by
  rw [analyzeCore_confidence]
  congr 1
  have e : |((analyzeCore text sres).credibilityScore : ℚ) - 50| * 2 =
      ((|(analyzeCore text sres).credibilityScore - 50| * 2 : Int) : ℚ) := by
    push_cast
    ring
  rw [e, jsRound_intCast]

theorem mem_condSingle_append {b : Prop} [Decidable b] {x y : String}
    {l : List String} : x ∈ (if b then [y] else []) ++ l ↔ (b ∧ x = y) ∨ x ∈ l := by
  split <;> simp_all

theorem filterPair_cons (b : Bool) (y : String) (rest : List (Bool × String)) :
    (((b, y) :: rest).filter Prod.fst).map Prod.snd =
      (if b then [y] else []) ++ (rest.filter Prod.fst).map Prod.snd := by
  cases b <;> simp [List.filter_cons]

theorem identifyRiskFactors_eq (text : String) (ls fs : Int) :
    identifyRiskFactors text ls fs =
      ((riskChecks text ls fs).filter Prod.fst).map Prod.snd := by
  simp only [identifyRiskFactors, riskChecks, filterPair_cons, List.filter_nil,
    List.map_nil, List.append_nil, List.append_assoc, decide_eq_true_eq]

theorem identifyRiskFactors_nodup (text : String) (ls fs : Int) :
    (identifyRiskFactors text ls fs).Nodup := by
  rw [identifyRiskFactors_eq]
  refine List.Nodup.sublist
    (List.Sublist.map Prod.snd (List.filter_sublist (riskChecks text ls fs))) ?_
  show (([("Suspicious language patterns detected"),
      ("Lack of factual substantiation"), ("Clickbait-style language"),
      ("Conspiracy-style rhetoric"), ("Excessive capitalization"),
      ("Excessive punctuation"), ("No attribution to sources")] : List String)).Nodup
  decide

theorem mem_condSingle {b : Prop} [Decidable b] {x y : String} :
    x ∈ (if b then [y] else []) ↔ b ∧ x = y := by
  split <;> simp_all

theorem classifyScore_iff (q : ℚ) :
    (classifyScore q = Classification.trustworthy ↔ q ≥ 75) ∧
    (classifyScore q = Classification.misleading ↔ q ≤ 40) ∧
    (classifyScore q = Classification.uncertain ↔ 40 < q ∧ q < 75) := by
  unfold classifyScore
  split_ifs with h1 h2
  · refine ⟨⟨fun _ => h1, fun _ => rfl⟩,
      ⟨fun h => ?_, fun h => absurd h1 (not_le.mpr (by linarith))⟩,
      ⟨fun h => ?_, fun h => absurd h1 (not_le.mpr h.2)⟩⟩ <;> simp_all
  · refine ⟨⟨fun h => ?_, fun h => absurd h h1⟩,
      ⟨fun _ => h2, fun _ => rfl⟩,
      ⟨fun h => ?_, fun h => absurd h2 (not_le.mpr h.1)⟩⟩ <;> simp_all
  · exact ⟨⟨fun h => by simp_all, fun h => absurd h h1⟩,
      ⟨fun h => by simp_all, fun h => absurd h h2⟩,
      ⟨fun _ => ⟨not_le.mp h2, not_le.mp h1⟩, fun _ => rfl⟩⟩

/-- The example text of the testable-properties section of the spec. -/
def exampleText : String :=
  "SHOCKING!! You won\x27t believe this amazing secret they don\x27t want you to know!!!"

theorem hello_lang : analyzeLanguagePatterns ("hello") = 80 := by
  simp only [analyzeLanguagePatterns, capsRatio, clamp100,
    show upperCount ("hello").data = 0 from by decide,
    show ("hello").data.length = 5 from by decide,
    show punctRuns ("hello").data 0 = 0 from by decide,
    show countMatches clickbaitPatterns ("hello").data = 0 from by decide,
    show countMatches emotionalWords ("hello").data = 0 from by decide]
  norm_num [min_def, max_def]

theorem hello_fact : analyzeFactualConsistency ("hello") = 75 := by
  simp only [analyzeFactualConsistency, clamp100,
    show hasNumbers ("hello").data = false from by decide,
    show countMatches absolutePatterns ("hello").data = 0 from by decide,
    show countMatches conspiracyPatterns ("hello").data = 0 from by decide]
  norm_num [min_def, max_def]

theorem hello_source : analyzeSourceReliability ("hello") = 40 := by
  simp only [analyzeSourceReliability, clamp100,
    show countMatches crediblePatterns ("hello").data = 0 from by decide,
    show countMatches unreliablePatterns ("hello").data = 0 from by decide,
    show hasAttribution ("hello").data = false from by decide]
  norm_num [min_def, max_def]

theorem shock_lang : analyzeLanguagePatterns exampleText = 35 := by
  simp only [analyzeLanguagePatterns, capsRatio, clamp100,
    show upperCount exampleText.data = 9 from by decide,
    show exampleText.data.length = 79 from by decide,
    show punctRuns exampleText.data 0 = 2 from by decide,
    show countMatches clickbaitPatterns exampleText.data = 3 from by decide,
    show countMatches emotionalWords exampleText.data = 0 from by decide]
  norm_num [min_def, max_def]

theorem shock_fact : analyzeFactualConsistency exampleText = 60 := by
  simp only [analyzeFactualConsistency, clamp100,
    show hasNumbers exampleText.data = false from by decide,
    show countMatches absolutePatterns exampleText.data = 0 from by decide,
    show countMatches conspiracyPatterns exampleText.data = 1 from by decide]
  norm_num [min_def, max_def]

theorem shock_source : analyzeSourceReliability exampleText = 40 := by
  simp only [analyzeSourceReliability, clamp100,
    show countMatches crediblePatterns exampleText.data = 0 from by decide,
    show countMatches unreliablePatterns exampleText.data = 0 from by decide,
    show hasAttribution exampleText.data = false from by decide]
  norm_num [min_def, max_def]

theorem shock_capsRatio : capsRatio exampleText.data = 9/79 := by
  simp only [capsRatio, show upperCount exampleText.data = 9 from by decide,
    show exampleText.data.length = 79 from by decide]
  norm_num

theorem shock_cred_core :
    (analyzeCore exampleText { label := ("NEUTRAL"), score := 0.5 }).credibilityScore
      = 47 := by
  rw [analyzeCore_credibility, shock_lang, shock_fact, shock_source]
  norm_num [jsRound, beq_iff_eq]

theorem shock_cred_neg :
    (analyzeCore exampleText { label := ("NEGATIVE"), score := 0.9 }).credibilityScore
      = 39 := by
  rw [analyzeCore_credibility, shock_lang, shock_fact, shock_source]
  norm_num [jsRound, beq_iff_eq]

theorem shock_uncertain :
    (analyzeCore exampleText { label := ("NEUTRAL"), score := 0.5 }).classification
      = Classification.uncertain := by
  rw [analyzeCore_classification, shock_cred_core]
  norm_num [classifyScore]

theorem shock_misleading :
    (analyzeCore exampleText { label := ("NEGATIVE"), score := 0.9 }).classification
      = Classification.misleading := by
  rw [analyzeCore_classification, shock_cred_neg]
  norm_num [classifyScore]

theorem shock_risk :
    (analyzeCore exampleText { label := ("NEUTRAL"), score := 0.5 }).riskFactors =
      [("Suspicious language patterns detected"), ("Clickbait-style language"),
       ("Conspiracy-style rhetoric"), ("Excessive punctuation")] := by
  rw [analyzeCore_riskFactors, shock_lang, shock_fact]
  simp only [identifyRiskFactors, capsRatio,
    show clickbaitRisk exampleText.data = true from by decide,
    show conspiracyRisk exampleText.data = true from by decide,
    show upperCount exampleText.data = 9 from by decide,
    show exampleText.data.length = 79 from by decide,
    show punctRuns exampleText.data 0 = 2 from by decide,
    show hasAttribution exampleText.data = false from by decide]
  norm_num

theorem blank_raw :
    fallbackRawScore (String.mk (List.replicate 44 (' ' : Char))) = 149/2 := by
  simp only [fallbackRawScore,
    show wordCount (String.mk (List.replicate 44 (' ' : Char))) = 45 from by decide,
    show questionMarkCount (String.mk (List.replicate 44 (' ' : Char))) = 0 from by decide,
    show exclamationCount (String.mk (List.replicate 44 (' ' : Char))) = 0 from by decide]
  norm_num [min_def, max_def]

theorem a_raw : fallbackRawScore ("a") = 701/10 := by
  simp only [fallbackRawScore,
    show wordCount ("a") = 1 from by decide,
    show questionMarkCount ("a") = 0 from by decide,
    show exclamationCount ("a") = 0 from by decide]
  norm_num [min_def, max_def]

/-- C1, counterexample.  The claim says the displayed sentimentAnalysis factor
is round of one minus the probability times one hundred for a NEGATIVE label.
On the text hello with a NEGATIVE result of probability one fifth the code
displays 20, the claimed value is 80: the negative-label adjustment enters the
weighted credibility only, never the displayed factor.  With a POSITIVE label
of probability zero the code displays 50 rather than the claimed 0, because a
falsy score is replaced by the 0.5 default. -/
theorem claim1_counterexample :
    (analyzeText ("hello")
        (some (Except.ok { label := ("NEGATIVE"), score := 1/5 }))).factors.sentimentAnalysis
        = 20 ∧
    jsRound ((1 - 1/5) * 100) = 80 ∧
    (analyzeText ("hello")
        (some (Except.ok { label := ("POSITIVE"), score := 0 }))).factors.sentimentAnalysis
        = 50 ∧
    jsRound ((0 : ℚ) * 100) = 0 := by
  refine ⟨?_, ?_, ?_, ?_⟩
  · rw [analyzeText_ok, analyzeCore_sentFactor]
    norm_num [jsRound]
  · norm_num [jsRound]
  · rw [analyzeText_ok, analyzeCore_sentFactor]
    norm_num [jsRound]
  · norm_num [jsRound]

/-- C1, amended.  For every text and classifier result, whatever the label,
the displayed sentimentAnalysis factor is round of the effective probability
times one hundred, where the effective probability is the returned one except
that an exact zero is replaced by 0.5. -/
theorem claim1_amended_thm (text : String) (label : String) (p : ℚ) :
    (analyzeText text
        (some (Except.ok { label := label, score := p }))).factors.sentimentAnalysis =
      jsRound ((if p = 0 then 0.5 else p) * 100) := rfl

/-- C2: when the sentiment call throws, the result has the fallback
credibility formula, the constant 60 sentiment factor, the normally computed
other three factors, and confidence 75. -/
theorem claim2_thm (text : String) :
    (analyzeText text (some (Except.error ()))).credibilityScore =
      jsRound (max 30 (min 85
        (70 - (questionMarkCount text : ℚ) * 5 - (exclamationCount text : ℚ) * 3 +
          min ((wordCount text : ℚ) / 10) 15))) ∧
    (analyzeText text (some (Except.error ()))).factors.sentimentAnalysis = 60 ∧
    (analyzeText text (some (Except.error ()))).factors.languagePattern =
      analyzeLanguagePatterns text ∧
    (analyzeText text (some (Except.error ()))).factors.factualConsistency =
      analyzeFactualConsistency text ∧
    (analyzeText text (some (Except.error ()))).factors.sourceReliability =
      analyzeSourceReliability text ∧
    (analyzeText text (some (Except.error ()))).confidenceLevel = 75 :=
  ⟨rfl, rfl, rfl, rfl, rfl, rfl⟩

/-- C3: on every path, if the classifier result carries a probability between
zero and one, all four factors and the credibility score are between 0 and
100 and the confidence level is between 0 and 95. -/
theorem claim3_thm (text : String) (sentimentCall : Option (Except Unit SentimentRes))
    (h : ∀ r, sentimentCall = some (Except.ok r) → 0 ≤ r.score ∧ r.score ≤ 1) :
    resultInRange (analyzeText text sentimentCall) := by
  cases sentimentCall with
  | none =>
    exact core_inRange text neutralSentiment (by norm_num [neutralSentiment])
      (by norm_num [neutralSentiment])
  | some e =>
    cases e with
    | ok r => exact core_inRange text r (h r rfl).1 (h r rfl).2
    | error u => exact fallback_inRange text

/-- Witness for C3 at the empty text with a null analyzer handle. -/
theorem claim3_witness : resultInRange (analyzeText ("") none) :=
  claim3_thm ("") none (fun _ hr => nomatch hr)

/-- C4, counterexample.  On the fallback path the classification is computed
from the clamped score before rounding.  Forty-four spaces give word count 45,
raw score 74.5: the returned credibilityScore is 75 but the classification is
uncertain, refuting the claimed biconditional that a returned score of at
least 75 is classified trustworthy. -/
theorem claim4_counterexample :
    (analyzeText (String.mk (List.replicate 44 (' ' : Char)))
        (some (Except.error ()))).credibilityScore = 75 ∧
    (analyzeText (String.mk (List.replicate 44 (' ' : Char)))
        (some (Except.error ()))).classification = Classification.uncertain := by
  constructor
  · rw [analyzeText_error, getFallback_credibility, blank_raw]
    norm_num [jsRound]
  · rw [analyzeText_error, getFallback_classification, blank_raw]
    norm_num [classifyScore]

/-- C4, amended.  The classification always comes from the fixed threshold
chain, applied to the returned integer score on the normal path but to the
unrounded clamped score on the fallback path, where it can disagree with the
returned rounded score. -/
theorem claim4_amended_thm (text : String) :
    ((analyzeText text (some (Except.error ()))).classification =
      classifyScore (fallbackRawScore text)) ∧
    ((analyzeText text none).classification =
      classifyScore (((analyzeText text none).credibilityScore : ℚ))) ∧
    (∀ r : SentimentRes, (analyzeText text (some (Except.ok r))).classification =
      classifyScore (((analyzeText text (some (Except.ok r))).credibilityScore : ℚ))) ∧
    (∀ q : ℚ, (classifyScore q = Classification.trustworthy ↔ q ≥ 75) ∧
      (classifyScore q = Classification.misleading ↔ q ≤ 40) ∧
      (classifyScore q = Classification.uncertain ↔ 40 < q ∧ q < 75)) :=
  ⟨rfl, rfl, fun _ => rfl, classifyScore_iff⟩

/-- C5, counterexample.  With a POSITIVE result of probability zero on the
text hello, the code replaces the falsy probability by 0.5 and returns
credibility 65, while the claimed formula with the classifier probability
itself gives 55. -/
theorem claim5_counterexample :
    (analyzeText ("hello")
        (some (Except.ok { label := ("POSITIVE"), score := 0 }))).credibilityScore = 65 ∧
    jsRound ((analyzeLanguagePatterns ("hello") : ℚ) * 0.3 + ((0 : ℚ) * 100) * 0.2 +
      (analyzeFactualConsistency ("hello") : ℚ) * 0.3 +
      (analyzeSourceReliability ("hello") : ℚ) * 0.2) = 55 := by
  constructor
  · rw [analyzeText_ok, analyzeCore_credibility, hello_lang, hello_fact, hello_source]
    norm_num [jsRound, beq_iff_eq]
  · rw [hello_lang, hello_fact, hello_source]
    norm_num [jsRound]

/-- C5, amended.  On the normal path the credibility score is the rounded
weighted sum with weights 0.3, 0.2, 0.3, 0.2, where the sentiment term uses
the effective probability: the classifier one, with an exact zero replaced by
0.5; it is one minus the effective probability times one hundred when the
label is NEGATIVE and the effective probability times one hundred otherwise. -/
theorem claim5_amended_thm (text : String) (label : String) (p : ℚ) :
    (analyzeText text (some (Except.ok { label := label, score := p }))).credibilityScore =
      jsRound ((analyzeLanguagePatterns text : ℚ) * 0.3 +
        (if (label == ("NEGATIVE") : Bool) then
            (1 - (if p = 0 then 0.5 else p)) * 100
          else (if p = 0 then 0.5 else p) * 100) * 0.2 +
        (analyzeFactualConsistency text : ℚ) * 0.3 +
        (analyzeSourceReliability text : ℚ) * 0.2) := rfl

/-- C6, counterexample.  On the fallback path the confidence level is the
constant 75: on the one-letter text a with a throwing sentiment call the
returned credibilityScore is 70, whose claimed confidence would be 40. -/
theorem claim6_counterexample :
    (analyzeText ("a") (some (Except.error ()))).confidenceLevel = 75 ∧
    (analyzeText ("a") (some (Except.error ()))).credibilityScore = 70 ∧
    min (|(70 : Int) - 50| * 2) 95 = 40 := by
  refine ⟨rfl, ?_, ?_⟩
  · rw [analyzeText_error, getFallback_credibility, a_raw]
    norm_num [jsRound]
  · norm_num [min_def]

/-- C6, amended.  The confidence formula min of twice the distance of the
score from 50 and 95 holds on the normal path only; the fallback path returns
the constant 75. -/
theorem claim6_amended_thm (text : String) :
    ((analyzeText text (some (Except.error ()))).confidenceLevel = 75) ∧
    ((analyzeText text none).confidenceLevel =
      min (|(analyzeText text none).credibilityScore - 50| * 2) 95) ∧
    (∀ r : SentimentRes, (analyzeText text (some (Except.ok r))).confidenceLevel =
      min (|(analyzeText text (some (Except.ok r))).credibilityScore - 50| * 2) 95) :=
  ⟨rfl, core_confidence_eq text neutralSentiment, fun r => core_confidence_eq text r⟩

/-- C7: a null analyzer handle degrades to the normal path on the neutral
default of probability one half, whose sentiment contribution to the weighted
score is one half times one hundred times zero point two; the result is the
same as an ok classifier answer NEUTRAL one half, not the fallback result. -/
theorem claim7_thm (text : String) :
    analyzeText text none = analyzeCore text neutralSentiment ∧
    analyzeText text none =
      analyzeText text (some (Except.ok { label := ("NEUTRAL"), score := 0.5 })) ∧
    (analyzeText text none).credibilityScore =
      jsRound ((analyzeLanguagePatterns text : ℚ) * 0.3 + 0.5 * 100 * 0.2 +
        (analyzeFactualConsistency text : ℚ) * 0.3 +
        (analyzeSourceReliability text : ℚ) * 0.2) ∧
    (analyzeText text none).factors.sentimentAnalysis = jsRound (0.5 * 100) := by
  refine ⟨rfl, rfl, ?_, ?_⟩
  · rw [analyzeText_none, analyzeCore_credibility]
    norm_num [neutralSentiment, beq_iff_eq, jsRound]
  · rw [analyzeText_none, analyzeCore_sentFactor]
    norm_num [neutralSentiment]

/-- C8: for every text and every pair of scores passed in, the risk factor
list is exactly the labels of the ordered check list whose condition holds,
and it never contains a duplicate; the normal path passes the language and
factual sub-scores, the fallback passes the constant 60 twice. -/
theorem claim8_thm (text : String) (languageScore factualScore : Int)
    (sres : SentimentRes) :
    (identifyRiskFactors text languageScore factualScore =
      ((riskChecks text languageScore factualScore).filter Prod.fst).map Prod.snd) ∧
    (identifyRiskFactors text languageScore factualScore).Nodup ∧
    ((analyzeCore text sres).riskFactors =
      identifyRiskFactors text (analyzeLanguagePatterns text)
        (analyzeFactualConsistency text)) ∧
    ((getFallbackAnalysis text).riskFactors = identifyRiskFactors text 60 60) :=
  ⟨identifyRiskFactors_eq text languageScore factualScore,
   identifyRiskFactors_nodup text languageScore factualScore, rfl, rfl⟩

/-- C9, counterexample.  On the shocking-secret example text the ratio of
uppercase letters is 9 over 79, which does not exceed 0.3, so the risk list
lacks the excessive capitalization label, and with a neutral stubbed
sentiment of one half the classification is uncertain, not misleading. -/
theorem claim9_counterexample :
    ¬(capsRatio exampleText.data > 0.3) ∧
    ("Excessive capitalization") ∉
      (analyzeText exampleText
        (some (Except.ok { label := ("NEUTRAL"), score := 0.5 }))).riskFactors ∧
    (analyzeText exampleText
        (some (Except.ok { label := ("NEUTRAL"), score := 0.5 }))).classification ≠
      Classification.misleading := by
  refine ⟨?_, ?_, ?_⟩
  · rw [shock_capsRatio]
    norm_num
  · rw [analyzeText_ok, shock_risk]
    decide
  · rw [analyzeText_ok, shock_uncertain]
    decide

/-- C9, amended.  On the example text three clickbait patterns and one
conspiracy pattern match, the caps ratio is 9 over 79 and does not exceed 0.3,
the risk list is exactly suspicious language, clickbait, conspiracy and
excessive punctuation, and with a neutral stubbed sentiment the score is 47
and the classification uncertain; a NEGATIVE stub of probability 0.9 does
classify it misleading. -/
theorem claim9_amended_thm :
    countMatches clickbaitPatterns exampleText.data = 3 ∧
    countMatches conspiracyPatterns exampleText.data = 1 ∧
    capsRatio exampleText.data = 9/79 ∧
    (analyzeText exampleText
        (some (Except.ok { label := ("NEUTRAL"), score := 0.5 }))).riskFactors =
      [("Suspicious language patterns detected"), ("Clickbait-style language"),
       ("Conspiracy-style rhetoric"), ("Excessive punctuation")] ∧
    (analyzeText exampleText
        (some (Except.ok { label := ("NEUTRAL"), score := 0.5 }))).credibilityScore = 47 ∧
    (analyzeText exampleText
        (some (Except.ok { label := ("NEUTRAL"), score := 0.5 }))).classification =
      Classification.uncertain ∧
    (analyzeText exampleText
        (some (Except.ok { label := ("NEGATIVE"), score := 0.9 }))).classification =
      Classification.misleading := by
  refine ⟨by decide, by decide, shock_capsRatio, ?_, ?_, ?_, ?_⟩
  · rw [analyzeText_ok]
    exact shock_risk
  · rw [analyzeText_ok]
    exact shock_cred_core
  · rw [analyzeText_ok]
    exact shock_uncertain
  · rw [analyzeText_ok]
    exact shock_misleading

/-- C10: the fallback result computes its risk factors with both passed
scores fixed at 60, so the two labels that require a passed score below 50
never appear in it, whatever the displayed factors are. -/
theorem claim10_thm (text : String) :
    ((getFallbackAnalysis text).riskFactors = identifyRiskFactors text 60 60) ∧
    ("Suspicious language patterns detected") ∉ (getFallbackAnalysis text).riskFactors ∧
    ("Lack of factual substantiation") ∉ (getFallbackAnalysis text).riskFactors := by
  refine ⟨rfl, ?_, ?_⟩ <;>
  · rw [getFallback_riskFactors]
    simp only [identifyRiskFactors]
    simp +decide [mem_condSingle_append, mem_condSingle]

end AnalysisService
